import Mathlib

/-!
Shallow embedding of the educational-content generation pipeline
(src/pipeline.py, src/generator_agent.py, src/reviewer_agent.py).

The external text-generation capability is modelled as a queue of raw
response strings consumed in order; running out of responses models a
transport failure, which the pipeline does not catch.  Python-level
values decoded from JSON are modelled by the `Json` inductive below;
Python runtime exceptions that the source code does not catch are
modelled by the `Py` result type.

Numbers with a fractional part or an exponent would be Python floats;
they are carried symbolically (`Json.fnum` keeps the matched literal
text) since no logic in the repository inspects them.
-/

/-- Python value decoded from a JSON document (result of `json.loads`). -/
inductive Json where
  | null
  | bool (b : Bool)
  | num (n : Int)
  | fnum (raw : String)
  | str (s : String)
  | arr (elems : List Json)
  | obj (members : List (String × Json))
  deriving Repr, Inhabited

/-- Result of running a piece of Python code: a value, or an uncaught
exception carrying its message. -/
inductive Py (α : Type) where
  | ok (a : α)
  | exn (e : String)
  deriving Repr, DecidableEq, Inhabited

/-! ### Model of Python's `json.loads`

Follows the grammar the `json` module accepts in its default (strict)
mode: the four whitespace characters, `null` / `true` / `false`,
`NaN` / `Infinity` / `-Infinity`, numbers with no leading zeros,
strings with the standard escapes (control characters must be
escaped), arrays and objects.  Duplicate object keys follow Python
dict assignment: the first occurrence keeps its position, the last
value wins. -/

/-- JSON whitespace (the `json` module skips exactly these four). -/
def jsonWs (c : Char) : Bool :=
  c = ' ' || c = '\t' || c = '\n' || c = '\r'

/-- Drop leading JSON whitespace. -/
def jsonSkipWs : List Char → List Char
  | c :: cs => if jsonWs c then jsonSkipWs cs else c :: cs
  | [] => []

/-- Split off the leading run of decimal digits. -/
def jsonSpanDigits : List Char → List Char × List Char
  | c :: cs =>
    if '0' ≤ c && c ≤ '9' then
      let (ds, r) := jsonSpanDigits cs
      (c :: ds, r)
    else ([], c :: cs)
  | [] => ([], [])

/-- Numeric value of a run of decimal digits. -/
def jsonDigitsVal (ds : List Char) : Nat :=
  ds.foldl (fun acc c => acc * 10 + (c.toNat - '0'.toNat)) 0

/-- Value of one hexadecimal digit, if it is one (codepoints 48-57 are
the digits, 97-102 lowercase a-f, 65-70 uppercase A-F). -/
def jsonHexDigit (c : Char) : Option Nat :=
  let n := c.toNat
  if 48 ≤ n && n ≤ 57 then some (n - 48)
  else if 97 ≤ n && n ≤ 102 then some (n - 87)
  else if 65 ≤ n && n ≤ 70 then some (n - 55)
  else none

/-- Value of a four-hex-digit escape. -/
def jsonHex4 (a b c d : Char) : Option Nat := do
  let x ← jsonHexDigit a
  let y ← jsonHexDigit b
  let z ← jsonHexDigit c
  let w ← jsonHexDigit d
  return ((x * 16 + y) * 16 + z) * 16 + w

/-- Single-character escapes accepted after a backslash: quote, slash
and backslash stand for themselves; `n`, `r`, `t`, `b`, `f` for the
usual control characters. -/
def jsonEscChar (e : Char) : Option Char :=
  if e = '"' || e = '\\' || e = '/' then some e
  else if e = 'n' then some '\n'
  else if e = 'r' then some '\r'
  else if e = 't' then some '\t'
  else if e = 'b' then some (Char.ofNat 8)
  else if e = 'f' then some (Char.ofNat 12)
  else none

/-- Remainder of a JSON string after its opening quote.  Strict mode:
raw control characters are rejected, unknown escapes are rejected,
surrogate-pair escapes are combined as Python does.  Each step
consumes at least one input character, so fuel `input length + 1`
always suffices. -/
def jsonStrRest : Nat → List Char → List Char → Option (String × List Char)
  | 0, _, _ => none
  | fuel + 1, acc, cs =>
    match cs with
    | '"' :: rest => some (⟨acc.reverse⟩, rest)
    | '\\' :: 'u' :: a :: b :: c :: d :: rest =>
      match jsonHex4 a b c d with
      | none => none
      | some n =>
        if 0xD800 ≤ n && n < 0xDC00 then
          match rest with
          | '\\' :: 'u' :: a2 :: b2 :: c2 :: d2 :: rest2 =>
            match jsonHex4 a2 b2 c2 d2 with
            | some m =>
              if 0xDC00 ≤ m && m < 0xE000 then
                jsonStrRest fuel
                  (Char.ofNat (0x10000 + (n - 0xD800) * 0x400 + (m - 0xDC00)) :: acc) rest2
              else jsonStrRest fuel (Char.ofNat n :: acc) (a2 :: b2 :: c2 :: d2 :: rest2)
            | none =>
              jsonStrRest fuel (Char.ofNat n :: acc)
                ('\\' :: 'u' :: a2 :: b2 :: c2 :: d2 :: rest2)
          | _ => jsonStrRest fuel (Char.ofNat n :: acc) rest
        else jsonStrRest fuel (Char.ofNat n :: acc) rest
    | '\\' :: e :: rest =>
      match jsonEscChar e with
      | some ch => jsonStrRest fuel (ch :: acc) rest
      | none => none
    | c :: rest => if c.toNat < 32 then none else jsonStrRest fuel (c :: acc) rest
    | [] => none

/-- Text of an optional exponent part; returns the matched characters
and the rest, or leaves the input unchanged when the exponent does not
match (the number then simply ends before it). -/
def jsonExpPart (cs : List Char) : List Char × List Char :=
  match cs with
  | e :: r =>
    if e = 'e' || e = 'E' then
      let (sgn, r1) : List Char × List Char :=
        match r with
        | '+' :: r' => (['+'], r')
        | '-' :: r' => (['-'], r')
        | _ => ([], r)
      let (ds, r2) := jsonSpanDigits r1
      if ds.isEmpty then ([], cs) else (e :: (sgn ++ ds), r2)
    else ([], cs)
  | [] => ([], cs)

/-- Fraction part, same convention as `jsonExpPart`. -/
def jsonFracPart (cs : List Char) : List Char × List Char :=
  match cs with
  | '.' :: r =>
    let (ds, r2) := jsonSpanDigits r
    if ds.isEmpty then ([], cs) else ('.' :: ds, r2)
  | _ => ([], cs)

/-- Parse a JSON number at the head of the input.  Mirrors the `json`
module's regex: optional minus, `0` or a nonzero-led digit run,
optional fraction, optional exponent.  Integers become `Json.num`;
anything with a fraction or exponent is kept as symbolic text. -/
def jsonParseNum (cs : List Char) : Option (Json × List Char) :=
  let (neg, signChars, cs1) : Bool × List Char × List Char :=
    match cs with
    | '-' :: r => (true, ['-'], r)
    | _ => (false, [], cs)
  match cs1 with
  | c :: r =>
    if c = '0' then jsonNumTail neg signChars ['0'] r
    else if '0' ≤ c && c ≤ '9' then
      let (ds, rest) := jsonSpanDigits (c :: r)
      jsonNumTail neg signChars ds rest
    else none
  | [] => none
where
  /-- Finish the number after its integer digits. -/
  jsonNumTail (neg : Bool) (signChars intDs : List Char) (rest : List Char) :
      Option (Json × List Char) :=
    let (fracChars, rest1) := jsonFracPart rest
    let (expChars, rest2) := jsonExpPart rest1
    if fracChars.isEmpty && expChars.isEmpty then
      some (.num ((if neg then -1 else 1) * (jsonDigitsVal intDs : Int)), rest)
    else
      some (.fnum ⟨signChars ++ intDs ++ fracChars ++ expChars⟩, rest2)

/-- Python dict assignment `d[k] = v` on an association list: an
existing key keeps its position and gets the new value; a new key is
appended. -/
def objInsert (ms : List (String × Json)) (k : String) (v : Json) :
    List (String × Json) :=
  match ms with
  | [] => [(k, v)]
  | (k', v') :: rest =>
    if k' = k then (k', v) :: rest else (k', v') :: objInsert rest k v

/-- Build a Python dict from object members in textual order. -/
def objOfPairs (pairs : List (String × Json)) : List (String × Json) :=
  pairs.foldl (fun d kv => objInsert d kv.1 kv.2) []

mutual

/-- Parse one JSON value (leading whitespace allowed).  `fuel` bounds
the recursion; `stringLength + 1` is always enough since every
recursive step consumes at least one character first. -/
def jsonParseVal : Nat → List Char → Option (Json × List Char)
  | 0, _ => none
  | fuel + 1, cs =>
    match jsonSkipWs cs with
    | 'n' :: 'u' :: 'l' :: 'l' :: r => some (.null, r)
    | 't' :: 'r' :: 'u' :: 'e' :: r => some (.bool true, r)
    | 'f' :: 'a' :: 'l' :: 's' :: 'e' :: r => some (.bool false, r)
    | 'N' :: 'a' :: 'N' :: r => some (.fnum "NaN", r)
    | 'I' :: 'n' :: 'f' :: 'i' :: 'n' :: 'i' :: 't' :: 'y' :: r =>
      some (.fnum "Infinity", r)
    | '-' :: 'I' :: 'n' :: 'f' :: 'i' :: 'n' :: 'i' :: 't' :: 'y' :: r =>
      some (.fnum "-Infinity", r)
    | '"' :: r =>
      match jsonStrRest (r.length + 1) [] r with
      | some (s, r') => some (.str s, r')
      | none => none
    | '[' :: r =>
      match jsonSkipWs r with
      | ']' :: r' => some (.arr [], r')
      | r' =>
        match jsonParseArrRest fuel r' with
        | some (vs, r'') => some (.arr vs, r'')
        | none => none
    | '{' :: r =>
      match jsonSkipWs r with
      | '}' :: r' => some (.obj [], r')
      | r' =>
        match jsonParseObjRest fuel r' with
        | some (pairs, r'') => some (.obj (objOfPairs pairs), r'')
        | none => none
    | rest => jsonParseNum rest

/-- Parse the elements of a non-empty array body up to `]`. -/
def jsonParseArrRest : Nat → List Char → Option (List Json × List Char)
  | 0, _ => none
  | fuel + 1, cs =>
    match jsonParseVal fuel cs with
    | none => none
    | some (v, rest) =>
      match jsonSkipWs rest with
      | ',' :: r =>
        match jsonParseArrRest fuel r with
        | some (vs, r') => some (v :: vs, r')
        | none => none
      | ']' :: r => some ([v], r)
      | _ => none

/-- Parse the members of a non-empty object body up to `}`, in
textual order. -/
def jsonParseObjRest : Nat → List Char → Option (List (String × Json) × List Char)
  | 0, _ => none
  | fuel + 1, cs =>
    match cs with
    | '"' :: r =>
      match jsonStrRest (r.length + 1) [] r with
      | none => none
      | some (k, r1) =>
        match jsonSkipWs r1 with
        | ':' :: r2 =>
          match jsonParseVal fuel r2 with
          | none => none
          | some (v, r3) =>
            match jsonSkipWs r3 with
            | ',' :: r4 =>
              match jsonParseObjRest fuel (jsonSkipWs r4) with
              | some (pairs, r5) => some ((k, v) :: pairs, r5)
              | none => none
            | '}' :: r4 => some ([(k, v)], r4)
            | _ => none
        | _ => none
    | _ => none

end

/-- Model of `json.loads`: parse one value and require only
whitespace after it, as the `json` module does ("Extra data"
otherwise).  `none` models a raised `json.JSONDecodeError`. -/
def jsonLoads (s : String) : Option Json :=
  match jsonParseVal (s.data.length + 1) s.data with
  | some (j, rest) => if (jsonSkipWs rest).isEmpty then some j else none
  | none => none

/-! ### Python string and value semantics used by the source code -/

/-- Python `str.find` for a single character: first index, or `-1`. -/
def strFindAux (c : Char) : List Char → Nat → Option Nat
  | [], _ => none
  | x :: xs, i => if x = c then some i else strFindAux c xs (i + 1)

/-- Model of `content.find(c)` (generator_agent.py:58, reviewer_agent.py:53). -/
def pyFind (s : String) (c : Char) : Int :=
  match strFindAux c s.data 0 with
  | some i => (i : Int)
  | none => -1

/-- Model of `content.rfind(c)`: last index, or `-1`. -/
def pyRfind (s : String) (c : Char) : Int :=
  match strFindAux c s.data.reverse 0 with
  | some i => ((s.data.length - 1 - i : Nat) : Int)
  | none => -1

/-- Python slicing `s[a:b]` for integer bounds: negative indices count
from the end, then both are clamped to the string. -/
def pySlice (s : String) (a b : Int) : String :=
  let n := s.data.length
  let lo := min (if a < 0 then (a + n).toNat else a.toNat) n
  let hi := min (if b < 0 then (b + n).toNat else b.toNat) n
  ⟨(s.data.drop lo).take (hi - lo)⟩

/-- Does `needle` start `hay`? -/
def charsStart : List Char → List Char → Bool
  | [], _ => true
  | _ :: _, [] => false
  | a :: as, b :: bs => a = b && charsStart as bs

/-- Does `needle` occur contiguously in `hay`?  Python `sub in str`. -/
def charsHasSub (needle : List Char) : List Char → Bool
  | [] => needle.isEmpty
  | c :: rest => charsStart needle (c :: rest) || charsHasSub needle rest

/-- Python truthiness of a decoded JSON value (`if x:`).  A symbolic
float is truthy when its pre-exponent digits are not all zero, and the
non-finite literals are always truthy. -/
def pyTruthy : Json → Bool
  | .null => false
  | .bool b => b
  | .num n => decide (n ≠ 0)
  | .fnum raw =>
    if raw = "NaN" || raw = "Infinity" || raw = "-Infinity" then true
    else (raw.data.takeWhile (fun c => !(c = 'e' || c = 'E'))).any
      (fun c => '1' ≤ c && c ≤ '9')
  | .str s => decide (s ≠ "")
  | .arr l => !l.isEmpty
  | .obj ms => !ms.isEmpty

/-- Python `j == s` for a string literal `s`: equal only when `j` is
that string (cross-type equality is `False`, never an error). -/
def pyEqStr (j : Json) (s : String) : Bool :=
  match j with
  | .str t => t = s
  | _ => false

/-- First binding of a key in a decoded object (the parser already
collapsed duplicates with dict semantics, so keys are unique). -/
def objLookup (ms : List (String × Json)) (k : String) : Option Json :=
  (ms.find? (fun kv => kv.1 = k)).map (fun kv => kv.2)

/-- Python `key in container` for a string key: key lookup on a dict,
element equality on a list, substring test on a string, and a
`TypeError` on non-container values. -/
def pyContains (key : String) : Json → Py Bool
  | .obj ms => .ok (objLookup ms key).isSome
  | .arr l => .ok (l.any (fun e => pyEqStr e key))
  | .str s => .ok (charsHasSub key.data s.data)
  | _ => .exn "TypeError: argument of type is not iterable"

/-- Python `container[key]` for a string key: dict lookup (KeyError
when absent), `TypeError` on lists, strings and scalars. -/
def pyGetItem (j : Json) (key : String) : Py Json :=
  match j with
  | .obj ms =>
    match objLookup ms key with
    | some v => .ok v
    | none => .exn "KeyError"
  | .arr _ => .exn "TypeError: list indices must be integers or slices, not str"
  | .str _ => .exn "TypeError: string indices must be integers"
  | _ => .exn "TypeError: object is not subscriptable"

/-- Python `container[key] = v`: dict update; `TypeError` otherwise. -/
def pySetItem (j : Json) (key : String) (v : Json) : Py Json :=
  match j with
  | .obj ms => .ok (.obj (objInsert ms key v))
  | _ => .exn "TypeError: object does not support item assignment"

/-- ASCII case fold, character by character (all the source's
`.lower()` calls ever see is ASCII status words). -/
def pyLowerStr (s : String) : String :=
  ⟨s.data.map Char.toLower⟩

/-- Python `x.lower()`: defined on strings, `AttributeError` on any
other decoded value. -/
def pyLower (j : Json) : Py String :=
  match j with
  | .str s => .ok (pyLowerStr s)
  | _ => .exn "AttributeError: object has no attribute lower"

/-- Python iteration `for x in j`: list elements, string characters,
dict keys; `TypeError` on scalars. -/
def pyIter : Json → Py (List Json)
  | .arr l => .ok l
  | .str s => .ok (s.data.map (fun c => .str ⟨[c]⟩))
  | .obj ms => .ok (ms.map (fun kv => .str kv.1))
  | _ => .exn "TypeError: object is not iterable"

/-- Python `sep.join(parts)`. -/
def pyJoin (sep : String) : List String → String
  | [] => ""
  | [x] => x
  | x :: xs => x ++ sep ++ pyJoin sep xs

/-- Python `repr` of a string: quote with a single quote (double quote
when the text has a single quote but no double quote), escaping the
backslash, the chosen quote, and the common control characters.
Unicode printability classes are not modelled; printable characters
are kept as they are. -/
def pyStrRepr (s : String) : String :=
  let sq := Char.ofNat 39
  let q := if s.data.contains sq && !s.data.contains '"' then '"' else sq
  let esc : Char → List Char := fun c =>
    if c = '\\' then ['\\', '\\']
    else if c = q then ['\\', q]
    else if c = '\n' then ['\\', 'n']
    else if c = '\r' then ['\\', 'r']
    else if c = '\t' then ['\\', 't']
    else [c]
  ⟨q :: s.data.foldr (fun c acc => esc c ++ acc) [q]⟩

mutual

/-- Python `repr` of a decoded JSON value. -/
def pyRepr : Json → String
  | .null => "None"
  | .bool b => if b then "True" else "False"
  | .num n => toString n
  | .fnum raw => raw
  | .str s => pyStrRepr s
  | .arr l => "[" ++ pyJoin ", " (pyReprList l) ++ "]"
  | .obj ms => "\x7b" ++ pyJoin ", " (pyReprMembers ms) ++ "\x7d"

/-- Element representations of a list value. -/
def pyReprList : List Json → List String
  | [] => []
  | j :: js => pyRepr j :: pyReprList js

/-- Member representations of a dict value. -/
def pyReprMembers : List (String × Json) → List String
  | [] => []
  | (k, v) :: ms => (pyStrRepr k ++ ": " ++ pyRepr v) :: pyReprMembers ms

end

/-- Python `str(x)` as used by an f-string: a string is itself, any
other value falls back to its `repr`. -/
def pyStr (j : Json) : String :=
  match j with
  | .str s => s
  | j => pyRepr j

/-! ### Model of `json.dumps(x, indent=2)` (reviewer_agent.py:85) -/

/-- Lowercase hexadecimal digit. -/
def hexDigitChar (n : Nat) : Char :=
  if n < 10 then Char.ofNat ('0'.toNat + n) else Char.ofNat ('a'.toNat + n - 10)

/-- Four-digit `\uXXXX` escape. -/
def uEscape (n : Nat) : List Char :=
  ['\\', 'u', hexDigitChar (n / 4096 % 16), hexDigitChar (n / 256 % 16),
   hexDigitChar (n / 16 % 16), hexDigitChar (n % 16)]

/-- Escape one character the way `json.dumps` does with its default
`ensure_ascii=True`: named escapes, `\uXXXX` for other control and
non-ASCII characters, surrogate pairs above the basic plane. -/
def jsonEscapeChar (c : Char) : List Char :=
  if c = '"' then ['\\', '"']
  else if c = '\\' then ['\\', '\\']
  else if c = '\n' then ['\\', 'n']
  else if c = '\r' then ['\\', 'r']
  else if c = '\t' then ['\\', 't']
  else if c.toNat = 8 then ['\\', 'b']
  else if c.toNat = 12 then ['\\', 'f']
  else if c.toNat < 32 then uEscape c.toNat
  else if c.toNat ≤ 126 then [c]
  else if c.toNat ≤ 0xFFFF then uEscape c.toNat
  else
    uEscape (0xD800 + (c.toNat - 0x10000) / 0x400) ++
      uEscape (0xDC00 + (c.toNat - 0x10000) % 0x400)

/-- JSON string literal with `ensure_ascii` escaping. -/
def jsonQuote (s : String) : String :=
  ⟨'"' :: s.data.foldr (fun c acc => jsonEscapeChar c ++ acc) ['"']⟩

/-- Indentation of `2 * level` spaces. -/
def indentOf (level : Nat) : String :=
  ⟨List.replicate (2 * level) ' '⟩

mutual

/-- Serialize a value at a nesting level, `indent=2` layout: non-empty
containers put each child on its own indented line. -/
def jsonDumpVal (level : Nat) : Json → String
  | .null => "null"
  | .bool b => if b then "true" else "false"
  | .num n => toString n
  | .fnum raw => raw
  | .str s => jsonQuote s
  | .arr [] => "[]"
  | .arr (x :: xs) =>
    "[\n" ++ pyJoin ",\n" (jsonDumpList (level + 1) (x :: xs)) ++ "\n" ++
      indentOf level ++ "]"
  | .obj [] => "\x7b\x7d"
  | .obj (m :: ms) =>
    "\x7b\n" ++ pyJoin ",\n" (jsonDumpMembers (level + 1) (m :: ms)) ++ "\n" ++
      indentOf level ++ "\x7d"

/-- Serialized lines of a list's elements. -/
def jsonDumpList (level : Nat) : List Json → List String
  | [] => []
  | j :: js => (indentOf level ++ jsonDumpVal level j) :: jsonDumpList level js

/-- Serialized lines of a dict's members. -/
def jsonDumpMembers (level : Nat) : List (String × Json) → List String
  | [] => []
  | (k, v) :: ms =>
    (indentOf level ++ jsonQuote k ++ ": " ++ jsonDumpVal level v) ::
      jsonDumpMembers level ms

end

/-- Model of `json.dumps(x, indent=2)`. -/
def jsonDumps (j : Json) : String := jsonDumpVal 0 j

/-! ### Shared response parsing

Both agents extract a JSON payload from the raw reply with the same
lines: take the text from the first opening brace to the last closing
brace when that span is non-empty, else the whole text, and decode it;
a decode failure (the only exception `json.loads` raises on a string)
is caught by the agents' `except json.JSONDecodeError` handlers
(generator_agent.py:56-64, reviewer_agent.py:52-59). -/

/-- Brace-delimited extraction followed by decoding; `none` is the
caught `JSONDecodeError` case. -/
def extractAndDecode (content : String) : Option Json :=
  let start_idx := pyFind content '{'
  let end_idx := pyRfind content '}' + 1
  if start_idx ≠ -1 ∧ end_idx > start_idx then
    jsonLoads (pySlice content start_idx end_idx)
  else
    jsonLoads content

/-- Record of one call to the external text-completion capability.
Temperature is stored in tenths to stay in exact arithmetic. -/
structure LLMCall where
  systemRole : String
  userPrompt : String
  temperatureTenths : Nat
  maxTokens : Nat
  deriving Repr

namespace GeneratorAgent

/-- System message of the generation call (generator_agent.py:41). -/
def systemPrompt : String :=
  "You are an expert educational content creator. Generate age-appropriate educational content in JSON format."

/-- JSON shape block of the generation prompt (generator_agent.py:79-98;
the doubled braces of the Python f-string render as single braces). -/
def promptTemplate : String :=
  "\x7b\n" ++
  "  \"explanation\": \"A clear, age-appropriate explanation of the concept (3-5 sentences)\",\n" ++
  "  \"mcqs\": [\n" ++
  "    \x7b\n" ++
  "      \"question\": \"Question text here\",\n" ++
  "      \"options\": [\"Option A\", \"Option B\", \"Option C\", \"Option D\"],\n" ++
  "      \"answer\": \"Option B\"\n" ++
  "    \x7d,\n" ++
  "    \x7b\n" ++
  "      \"question\": \"Question text here\",\n" ++
  "      \"options\": [\"Option A\", \"Option B\", \"Option C\", \"Option D\"],\n" ++
  "      \"answer\": \"Option C\"\n" ++
  "    \x7d,\n" ++
  "    \x7b\n" ++
  "      \"question\": \"Question text here\",\n" ++
  "      \"options\": [\"Option A\", \"Option B\", \"Option C\", \"Option D\"],\n" ++
  "      \"answer\": \"Option A\"\n" ++
  "    \x7d\n" ++
  "  ]\n" ++
  "\x7d"

/-- Base generation prompt, before any feedback section
(generator_agent.py:76-106). -/
def basePrompt (grade : Int) (topic : String) : String :=
  "Generate educational content for Grade " ++ toString grade ++
  " students about \"" ++ topic ++ "\".\n\n" ++
  "IMPORTANT: Return ONLY a valid JSON object with this exact structure:\n" ++
  promptTemplate ++
  "\n\nGuidelines:\n" ++
  "- Use simple vocabulary appropriate for Grade " ++ toString grade ++ " students\n" ++
  "- Keep explanations clear and concise\n" ++
  "- Generate exactly 3 MCQs\n" ++
  "- Each MCQ must have exactly 4 options\n" ++
  "- Questions should test understanding of the explained concepts\n" ++
  "- Make sure the answer is one of the provided options (exact text match)"

/-- Model of `GeneratorAgent._build_prompt` (generator_agent.py:74-112).
A truthy feedback value appends a section listing each item as a
`- `-bulleted line; `None` or falsy feedback leaves the base prompt.
Iterating a non-iterable feedback value raises. -/
def build_prompt (grade : Int) (topic : String) (feedback : Option Json) : Py String :=
  let base := basePrompt grade topic
  match feedback with
  | none => .ok base
  | some fb =>
    if pyTruthy fb then
      match pyIter fb with
      | .exn e => .exn e
      | .ok items =>
        let feedback_text := pyJoin "\n" (items.map (fun x => "- " ++ pyStr x))
        .ok (base ++ "\n\nPREVIOUS FEEDBACK TO ADDRESS:\n" ++ feedback_text ++
          "\n\nPlease revise the content addressing all the feedback points above.")
    else .ok base

/-- Response parsing of `GeneratorAgent.generate`
(generator_agent.py:56-72): decoded payload on success, degraded
record `{explanation: raw text, mcqs: []}` when decoding fails.  No
statement in the guarded block raises anything but the caught
`JSONDecodeError`, so this parse is total. -/
def parseContentResponse (content : String) : Json :=
  match extractAndDecode content with
  | some result => result
  | none => .obj [("explanation", .str content), ("mcqs", .arr [])]

/-- Model of `GeneratorAgent.generate` (generator_agent.py:20-72): build
the prompt, perform the completion call (temperature 0.7, max 2000
tokens), parse the reply.  The returned list records the call made;
a missing response models an uncaught transport error. -/
def generate (grade : Int) (topic : String) (feedback : Option Json)
    (resp? : Option String) : List LLMCall × Py Json :=
  match build_prompt grade topic feedback with
  | .exn e => ([], .exn e)
  | .ok prompt =>
    let call : LLMCall := ⟨systemPrompt, prompt, 7, 2000⟩
    match resp? with
    | none => ([call], .exn "TransportError")
    | some content => ([call], .ok (parseContentResponse content))

end GeneratorAgent

namespace ReviewerAgent

/-- System message of the review call (reviewer_agent.py:37). -/
def systemPrompt : String :=
  "You are an expert educational content reviewer. Evaluate content for age-appropriateness, conceptual correctness, and clarity. Return your review in JSON format."

/-- Verdict shape block of the review prompt (reviewer_agent.py:103-109). -/
def reviewTemplate : String :=
  "\x7b\n" ++
  "  \"status\": \"pass or fail\",\n" ++
  "  \"feedback\": [\n" ++
  "    \"Specific issue 1 (if any)\",\n" ++
  "    \"Specific issue 2 (if any)\"\n" ++
  "  ]\n" ++
  "\x7d"

/-- Model of `ReviewerAgent._build_review_prompt`
(reviewer_agent.py:83-119): the content serialized with
`json.dumps(content, indent=2)` embedded in the fixed instruction. -/
def build_review_prompt (content : Json) (grade : Int) (topic : String) : String :=
  let content_str := jsonDumps content
  "Review the following educational content for Grade " ++ toString grade ++
  " students about \"" ++ topic ++ "\".\n\n" ++
  "CONTENT TO REVIEW:\n" ++ content_str ++ "\n\n" ++
  "EVALUATION CRITERIA:\n" ++
  "1. Age Appropriateness: Is the language and complexity suitable for Grade " ++
    toString grade ++ "?\n" ++
  "2. Conceptual Correctness: Are the concepts explained accurately?\n" ++
  "3. Clarity: Is the explanation clear and easy to understand?\n" ++
  "4. MCQ Quality: \n" ++
  "   - Do questions test the explained concepts?\n" ++
  "   - Are options clear and distinct?\n" ++
  "   - Is the correct answer actually correct?\n" ++
  "   - Are all 4 options provided for each question?\n\n" ++
  "IMPORTANT: Return ONLY a valid JSON object with this exact structure:\n" ++
  reviewTemplate ++
  "\n\nRules:\n" ++
  "- Return \"pass\" ONLY if ALL criteria are met with no significant issues\n" ++
  "- Return \"fail\" if there are ANY issues that need correction\n" ++
  "- In the feedback array, list specific, actionable issues\n" ++
  "- If status is \"pass\", feedback can be empty or contain minor suggestions\n" ++
  "- Be specific about which part of the content has issues (e.g., \"Sentence 2\", \"Question 3\")\n"

/-- Replacement verdict when the decoded object lacks a required field
(reviewer_agent.py:62-66). -/
def invalidFormatVerdict : Json :=
  .obj [("status", .str "fail"), ("feedback", .arr [.str "Invalid review format"])]

/-- Fallback verdict when decoding raises (reviewer_agent.py:74-79). -/
def couldNotParseVerdict : Json :=
  .obj [("status", .str "fail"), ("feedback", .arr [.str "Could not parse review response"])]

/-- Field check and status normalization applied to a decoded review
value (reviewer_agent.py:61-72).  Only `json.JSONDecodeError` is
caught in the source, so the item accesses and the `.lower()` call
here can raise: those exceptions escape `review`. -/
def normalizeReview (result : Json) : Py Json :=
  match pyContains "status" result with
  | .exn e => .exn e
  | .ok hasStatus =>
    let afterCheck : Py Json :=
      if hasStatus then
        match pyContains "feedback" result with
        | .exn e => .exn e
        | .ok hasFeedback => .ok (if hasFeedback then result else invalidFormatVerdict)
      else .ok invalidFormatVerdict
    match afterCheck with
    | .exn e => .exn e
    | .ok checked =>
      match pyGetItem checked "status" with
      | .exn e => .exn e
      | .ok statusVal =>
        match pyLower statusVal with
        | .exn e => .exn e
        | .ok lowered =>
          if lowered = "pass" || lowered = "fail" then
            pySetItem checked "status" (.str lowered)
          else
            pySetItem checked "status" (.str "fail")

/-- Response parsing of `ReviewerAgent.review`
(reviewer_agent.py:52-81): extraction and decoding with the dual
fallback, then normalization of the decoded value. -/
def parseReviewResponse (content_text : String) : Py Json :=
  match extractAndDecode content_text with
  | some result => normalizeReview result
  | none => .ok couldNotParseVerdict

/-- Model of `ReviewerAgent.review` (reviewer_agent.py:17-81): build
the review prompt, perform the completion call (temperature 0.3, max
1000 tokens), parse and normalize the reply. -/
def review (content : Json) (grade : Int) (topic : String)
    (resp? : Option String) : List LLMCall × Py Json :=
  let prompt := build_review_prompt content grade topic
  let call : LLMCall := ⟨systemPrompt, prompt, 3, 1000⟩
  match resp? with
  | none => ([call], .exn "TransportError")
  | some content_text => ([call], parseReviewResponse content_text)

end ReviewerAgent

/-- Return value of `ContentPipeline.generate_content`: the 4-tuple
`(initial_content, review_result, refined_content or None,
refined_review or None)` (pipeline.py:52-65). -/
structure PipelineResult where
  initial_content : Json
  review_result : Json
  refined_content : Option Json
  refined_review : Option Json
  deriving Repr, Inhabited

namespace ContentPipeline

/-- Model of `ContentPipeline.generate_content` (pipeline.py:17-65).
The external capability is a queue of raw responses consumed one per
call; the second component collects the calls actually issued, in
order.  An uncaught Python exception (transport failure, or a parse
slip in the reviewer) aborts the run with `Py.exn`. -/
def generate_content (grade : Int) (topic : String) (responses : List String) :
    Py PipelineResult × List LLMCall :=
  -- Step 1: Generate initial content
  let step1 := GeneratorAgent.generate grade topic none (responses.get? 0)
  match step1.2 with
  | .exn e => (.exn e, step1.1)
  | .ok initial_content =>
    -- Step 2: Review the content
    let step2 := ReviewerAgent.review initial_content grade topic (responses.get? 1)
    let trace2 := step1.1 ++ step2.1
    match step2.2 with
    | .exn e => (.exn e, trace2)
    | .ok review_result =>
      -- Step 3: Refine if needed (one pass only)
      match pyGetItem review_result "status" with
      | .exn e => (.exn e, trace2)
      | .ok statusVal =>
        if pyEqStr statusVal "fail" then
          match pyGetItem review_result "feedback" with
          | .exn e => (.exn e, trace2)
          | .ok feedbackVal =>
            if pyTruthy feedbackVal then
              match pyGetItem review_result "feedback" with
              | .exn e => (.exn e, trace2)
              | .ok feedbackArg =>
                let step3 :=
                  GeneratorAgent.generate grade topic (some feedbackArg) (responses.get? 2)
                let trace3 := trace2 ++ step3.1
                match step3.2 with
                | .exn e => (.exn e, trace3)
                | .ok refined_content =>
                  let step4 :=
                    ReviewerAgent.review refined_content grade topic (responses.get? 3)
                  let trace4 := trace3 ++ step4.1
                  match step4.2 with
                  | .exn e => (.exn e, trace4)
                  | .ok refined_review =>
                    (.ok ⟨initial_content, review_result,
                      some refined_content, some refined_review⟩, trace4)
            else
              (.ok ⟨initial_content, review_result, none, none⟩, trace2)
        else
          (.ok ⟨initial_content, review_result, none, none⟩, trace2)

end ContentPipeline

/-! ### Helper lemmas and derived notions -/

/-- The condition under which pipeline.py:40 enters refinement: the
verdict's status field is the string `"fail"` and its feedback field
is truthy. -/
def refinementTriggered (verdict : Json) : Prop :=
  pyGetItem verdict "status" = .ok (.str "fail") ∧
  ∃ fbv, pyGetItem verdict "feedback" = .ok fbv ∧ pyTruthy fbv = true

/-- The claim's stricter reading of that condition: the feedback field
is a non-empty list. -/
def feedbackIsNonEmptyList (verdict : Json) : Bool :=
  match pyGetItem verdict "feedback" with
  | .ok (.arr (_ :: _)) => true
  | _ => false

lemma pyEqStr_true_iff (j : Json) (s : String) : pyEqStr j s = true ↔ j = .str s := by
  cases j <;> simp [pyEqStr]

/-- Result component of a pipeline run, for stating concrete runs. -/
def runResult (g : Int) (t : String) (rs : List String) : PipelineResult :=
  match (ContentPipeline.generate_content g t rs).1 with
  | .ok r => r
  | .exn _ => default

/-- Trace component of a pipeline run. -/
def runTrace (g : Int) (t : String) (rs : List String) : List LLMCall :=
  (ContentPipeline.generate_content g t rs).2

/-! ### Claim C4: content-parse fallback -/

/-- C4: for every raw text on which brace extraction and decoding fail,
the content parser returns the degraded record whose explanation is
the raw text verbatim and whose question list is empty; the parse is a
total function, so it never raises. -/
theorem C4_content_parse_fallback (rawText : String)
    (h : extractAndDecode rawText = none) :
    GeneratorAgent.parseContentResponse rawText =
      .obj [("explanation", .str rawText), ("mcqs", .arr [])] := by
  unfold GeneratorAgent.parseContentResponse
  rw [h]

/-- Witness for C4 at the spec's own example input. -/
theorem C4_witness :
    extractAndDecode "not json at all" = none ∧
    GeneratorAgent.parseContentResponse "not json at all" =
      .obj [("explanation", .str "not json at all"), ("mcqs", .arr [])] :=
  ⟨rfl, C4_content_parse_fallback "not json at all" rfl⟩

/-! ### Claim C2: the review parser can raise -/

/-- C2 is violated by the code: a reply whose payload decodes to an
object with a non-string status passes the field check and then
crashes in `result["status"].lower()` (reviewer_agent.py:69), an
`AttributeError` that the `except json.JSONDecodeError` handler does
not catch, so the parse does not complete with a well-typed result. -/
theorem C2_uncaught_parse_exception :
    ReviewerAgent.parseReviewResponse "\x7b\"status\": 1, \"feedback\": []\x7d" =
      .exn "AttributeError: object has no attribute lower" := rfl

/-! ### Claim C5: review-parse normalization -/

/-- C5: on a decoded review object with a string status and a feedback
field, the status is case-folded and anything other than `"pass"`
becomes `"fail"`; a decoded object missing a required field is
replaced by the invalid-format verdict; a decode failure is replaced
by the could-not-parse verdict. -/
theorem C5_review_normalization (rawText : String) :
    (∀ fields s, extractAndDecode rawText = some (.obj fields) →
      objLookup fields "status" = some (.str s) →
      (objLookup fields "feedback").isSome = true →
      ReviewerAgent.parseReviewResponse rawText =
        .ok (.obj (objInsert fields "status"
          (.str (if pyLowerStr s = "pass" then "pass" else "fail"))))) ∧
    (∀ fields, extractAndDecode rawText = some (.obj fields) →
      (objLookup fields "status" = none ∨ objLookup fields "feedback" = none) →
      ReviewerAgent.parseReviewResponse rawText = .ok ReviewerAgent.invalidFormatVerdict) ∧
    (extractAndDecode rawText = none →
      ReviewerAgent.parseReviewResponse rawText = .ok ReviewerAgent.couldNotParseVerdict) := by
  refine ⟨?_, ?_, ?_⟩
  · intro fields s hdec hs hf
    unfold ReviewerAgent.parseReviewResponse
    rw [hdec]
    unfold ReviewerAgent.normalizeReview
    simp only [pyContains, pyGetItem, pyLower, pySetItem, hs, hf, Option.isSome_some,
      if_true]
    by_cases hp : pyLowerStr s = "pass"
    · simp [hp]
    · by_cases hq : pyLowerStr s = "fail"
      · simp [hp, hq]
      · simp [hp, hq]
  · intro fields hdec hmiss
    unfold ReviewerAgent.parseReviewResponse
    rw [hdec]
    unfold ReviewerAgent.normalizeReview
    simp only [pyContains]
    rcases hmiss with hm | hm
    · rw [hm]; rfl
    · rcases hs : objLookup fields "status" with _ | sv
      · rfl
      · rw [hm]; rfl
  · intro hdec
    unfold ReviewerAgent.parseReviewResponse
    rw [hdec]

/-- Witness for C5 at the spec's own example: an ambiguous status is
normalized to fail. -/
theorem C5_witness :
    ReviewerAgent.parseReviewResponse "\x7b\"status\":\"maybe\",\"feedback\":[]\x7d" =
      .ok (.obj [("status", .str "fail"), ("feedback", .arr [])]) :=
  (C5_review_normalization "\x7b\"status\":\"maybe\",\"feedback\":[]\x7d").1
    [("status", .str "maybe"), ("feedback", .arr [])] "maybe" rfl rfl rfl

/-! ### Claim C8: parsing is a round-trip on well-formed payloads -/

/-- C8: a raw text that is exactly a well-formed structured payload —
it starts with the opening brace, ends with the closing brace, and
decodes — is reproduced exactly: brace extraction returns the whole
text and the parser returns precisely the decoded value. -/
theorem C8_parse_roundtrip (rawText : String) (j : Json)
    (hhead : rawText.data.head? = some '{')
    (hlast : rawText.data.getLast? = some '}')
    (hdec : jsonLoads rawText = some j) :
    GeneratorAgent.parseContentResponse rawText = j := by
  obtain ⟨cs, hcs⟩ : ∃ cs, rawText.data = '{' :: cs := by
    cases h : rawText.data with
    | nil => rw [h] at hhead; simp at hhead
    | cons a as =>
      rw [h] at hhead
      simp only [List.head?_cons, Option.some.injEq] at hhead
      exact ⟨as, by rw [hhead]⟩
  obtain ⟨ds, hds⟩ : ∃ ds, rawText.data.reverse = '}' :: ds := by
    have hrev : rawText.data.reverse.head? = some '}' := by
      rw [List.head?_reverse]; exact hlast
    cases h : rawText.data.reverse with
    | nil => rw [h] at hrev; simp at hrev
    | cons a as =>
      rw [h] at hrev
      simp only [List.head?_cons, Option.some.injEq] at hrev
      exact ⟨as, by rw [hrev]⟩
  have hfind : pyFind rawText '{' = 0 := by
    unfold pyFind
    rw [hcs]
    simp [strFindAux]
  have hrfind : pyRfind rawText '}' = ((rawText.data.length - 1 : Nat) : Int) := by
    unfold pyRfind
    rw [hds]
    simp [strFindAux]
  have hlen : 1 ≤ rawText.data.length := by
    rw [hcs]; simp
  have hslice : pySlice rawText 0 (((rawText.data.length - 1 : Nat) : Int) + 1) = rawText := by
    rw [show (((rawText.data.length - 1 : Nat) : Int) + 1) = (rawText.data.length : Int) by omega]
    unfold pySlice
    dsimp only
    rw [if_neg (by omega : ¬ ((0 : Int) < 0)),
      if_neg (by omega : ¬ ((rawText.data.length : Int) < 0))]
    simp
    apply String.ext
    show List.take rawText.data.length rawText.data = rawText.data
    exact List.take_length rawText.data
  unfold GeneratorAgent.parseContentResponse extractAndDecode
  rw [hfind, hrfind, if_pos, hslice, hdec]
  constructor
  · decide
  · omega

/-- Witness for C8 on a concrete well-formed payload. -/
theorem C8_witness :
    GeneratorAgent.parseContentResponse
        "\x7b\"explanation\": \"Angles are corners\", \"mcqs\": []\x7d" =
      .obj [("explanation", .str "Angles are corners"), ("mcqs", .arr [])] :=
  C8_parse_roundtrip _ _ rfl rfl rfl

/-! ### Claim C10: feedback only extends the base prompt -/

/-- Prompt built from a non-empty feedback list: the base prompt
followed by the feedback section. -/
lemma build_prompt_arr (g : Int) (t : String) (l : List Json) (hne : l ≠ []) :
    GeneratorAgent.build_prompt g t (some (.arr l)) =
      .ok (GeneratorAgent.basePrompt g t ++ "\n\nPREVIOUS FEEDBACK TO ADDRESS:\n" ++
        pyJoin "\n" (l.map (fun x => "- " ++ pyStr x)) ++
        "\n\nPlease revise the content addressing all the feedback points above.") := by
  cases l with
  | nil => exact absurd rfl hne
  | cons x xs => rfl

/-- C10: for a non-empty feedback list the generation request extends
the no-feedback request: the base prompt is reproduced unchanged and
the feedback section is appended after it. -/
theorem C10_feedback_extends_prompt (g : Int) (t : String) (fs : List String)
    (hne : fs ≠ []) :
    GeneratorAgent.build_prompt g t none = .ok (GeneratorAgent.basePrompt g t) ∧
    ∃ tail, GeneratorAgent.build_prompt g t (some (.arr (fs.map .str))) =
      .ok (GeneratorAgent.basePrompt g t ++ tail) := by
  refine ⟨rfl, "\n\nPREVIOUS FEEDBACK TO ADDRESS:\n" ++
    pyJoin "\n" ((fs.map Json.str).map (fun x => "- " ++ pyStr x)) ++
    "\n\nPlease revise the content addressing all the feedback points above.", ?_⟩
  rw [build_prompt_arr g t _ (by simpa using hne)]
  simp [String.append_assoc]

/-- Witness for C10 at a concrete grade, topic and feedback list. -/
theorem C10_witness :
    GeneratorAgent.build_prompt 4 "Angles" none = .ok (GeneratorAgent.basePrompt 4 "Angles") ∧
    ∃ tail, GeneratorAgent.build_prompt 4 "Angles" (some (.arr ([ "Fix Q2" ].map .str))) =
      .ok (GeneratorAgent.basePrompt 4 "Angles" ++ tail) :=
  C10_feedback_extends_prompt 4 "Angles" ["Fix Q2"] (by simp)

/-! ### Pipeline run characterization -/

lemma gen_initial_some (g : Int) (t : String) (c : String) :
    GeneratorAgent.generate g t none (some c) =
      ([⟨GeneratorAgent.systemPrompt, GeneratorAgent.basePrompt g t, 7, 2000⟩],
       .ok (GeneratorAgent.parseContentResponse c)) := rfl

lemma gen_initial_none (g : Int) (t : String) :
    GeneratorAgent.generate g t none none =
      ([⟨GeneratorAgent.systemPrompt, GeneratorAgent.basePrompt g t, 7, 2000⟩],
       .exn "TransportError") := rfl

lemma review_some (c : Json) (g : Int) (t : String) (x : String) :
    ReviewerAgent.review c g t (some x) =
      ([⟨ReviewerAgent.systemPrompt, ReviewerAgent.build_review_prompt c g t, 3, 1000⟩],
       ReviewerAgent.parseReviewResponse x) := rfl

lemma review_none (c : Json) (g : Int) (t : String) :
    ReviewerAgent.review c g t none =
      ([⟨ReviewerAgent.systemPrompt, ReviewerAgent.build_review_prompt c g t, 3, 1000⟩],
       .exn "TransportError") := rfl

/-- Characterization of every run of the pipeline that returns
normally: the first two calls always happen and fill the first two
result fields, and the run either skips refinement (condition false,
both refined fields absent, exactly two calls) or refines (condition
true, both refined fields present, exactly four calls). -/
lemma run_ok_spec (g : Int) (t : String) (rs : List String) (r : PipelineResult)
    (tr : List LLMCall)
    (h : ContentPipeline.generate_content g t rs = (.ok r, tr)) :
    ∃ r1 r2, rs.get? 0 = some r1 ∧ rs.get? 1 = some r2 ∧
      r.initial_content = GeneratorAgent.parseContentResponse r1 ∧
      ReviewerAgent.parseReviewResponse r2 = .ok r.review_result ∧
      ((¬ refinementTriggered r.review_result ∧ r.refined_content = none ∧
          r.refined_review = none ∧
          tr = [⟨GeneratorAgent.systemPrompt, GeneratorAgent.basePrompt g t, 7, 2000⟩,
                ⟨ReviewerAgent.systemPrompt,
                 ReviewerAgent.build_review_prompt (GeneratorAgent.parseContentResponse r1) g t,
                 3, 1000⟩]) ∨
       (refinementTriggered r.review_result ∧
        ∃ fbv r3 r4 p3 rv,
          pyGetItem r.review_result "feedback" = .ok fbv ∧
          rs.get? 2 = some r3 ∧ rs.get? 3 = some r4 ∧
          GeneratorAgent.build_prompt g t (some fbv) = .ok p3 ∧
          r.refined_content = some (GeneratorAgent.parseContentResponse r3) ∧
          ReviewerAgent.parseReviewResponse r4 = .ok rv ∧
          r.refined_review = some rv ∧
          tr = [⟨GeneratorAgent.systemPrompt, GeneratorAgent.basePrompt g t, 7, 2000⟩,
                ⟨ReviewerAgent.systemPrompt,
                 ReviewerAgent.build_review_prompt (GeneratorAgent.parseContentResponse r1) g t,
                 3, 1000⟩,
                ⟨GeneratorAgent.systemPrompt, p3, 7, 2000⟩,
                ⟨ReviewerAgent.systemPrompt,
                 ReviewerAgent.build_review_prompt (GeneratorAgent.parseContentResponse r3) g t,
                 3, 1000⟩])) := by
  unfold ContentPipeline.generate_content at h
  cases hr0 : rs.get? 0 with
  | none =>
    rw [hr0, gen_initial_none] at h
    simp at h
  | some r1 =>
    rw [hr0, gen_initial_some] at h
    dsimp only at h
    cases hr1 : rs.get? 1 with
    | none =>
      rw [hr1, review_none] at h
      simp at h
    | some r2 =>
      rw [hr1, review_some] at h
      dsimp only at h
      cases hv : ReviewerAgent.parseReviewResponse r2 with
      | exn e => rw [hv] at h; simp at h
      | ok v =>
        rw [hv] at h
        dsimp only at h
        refine ⟨r1, r2, rfl, rfl, ?_⟩
        cases hsv : pyGetItem v "status" with
        | exn e => rw [hsv] at h; simp at h
        | ok sv =>
          rw [hsv] at h
          dsimp only at h
          cases hfail : pyEqStr sv "fail" with
          | false =>
            rw [hfail] at h
            simp only [Bool.false_eq_true, if_false] at h
            rw [Prod.mk.injEq] at h
            obtain ⟨h1, h2⟩ := h
            injection h1 with h1
            subst h1
            subst h2
            refine ⟨rfl, hv, Or.inl ⟨?_, rfl, rfl, by simp⟩⟩
            rintro ⟨hstat, -⟩
            rw [hsv] at hstat
            injection hstat with hstat
            subst hstat
            simp [pyEqStr] at hfail
          | true =>
            rw [hfail] at h
            simp only [if_true] at h
            cases hfb : pyGetItem v "feedback" with
            | exn e => rw [hfb] at h; simp at h
            | ok fbv =>
              rw [hfb] at h
              dsimp only at h
              unfold GeneratorAgent.generate at h
              cases htruthy : pyTruthy fbv with
              | false =>
                rw [htruthy] at h
                simp only [Bool.false_eq_true, if_false] at h
                rw [Prod.mk.injEq] at h
                obtain ⟨h1, h2⟩ := h
                injection h1 with h1
                subst h1
                subst h2
                refine ⟨rfl, hv, Or.inl ⟨?_, rfl, rfl, by simp⟩⟩
                rintro ⟨-, fbv2, hfb2, htr2⟩
                rw [hfb] at hfb2
                injection hfb2 with hfb2
                subst hfb2
                rw [htruthy] at htr2
                exact Bool.false_ne_true htr2
              | true =>
                rw [htruthy] at h
                simp only [if_true] at h
                cases hbp : GeneratorAgent.build_prompt g t (some fbv) with
                | exn e => rw [hbp] at h; dsimp only at h; simp at h
                | ok p3 =>
                  rw [hbp] at h
                  dsimp only at h
                  cases hr2 : rs.get? 2 with
                  | none => rw [hr2] at h; simp at h
                  | some r3 =>
                    rw [hr2] at h
                    dsimp only at h
                    cases hr3 : rs.get? 3 with
                    | none =>
                      rw [hr3, review_none] at h
                      simp at h
                    | some r4 =>
                      rw [hr3, review_some] at h
                      dsimp only at h
                      cases hv2 : ReviewerAgent.parseReviewResponse r4 with
                      | exn e => rw [hv2] at h; simp at h
                      | ok rv =>
                        rw [hv2] at h
                        dsimp only at h
                        rw [Prod.mk.injEq] at h
                        obtain ⟨h1, h2⟩ := h
                        injection h1 with h1
                        subst h1
                        subst h2
                        refine ⟨rfl, hv, Or.inr ⟨?_, fbv, r3, r4, p3, rv, hfb, rfl, rfl, hbp,
                          rfl, hv2, rfl, by simp⟩⟩
                        refine ⟨?_, fbv, hfb, htruthy⟩
                        rw [hsv]
                        have := (pyEqStr_true_iff sv "fail").mp hfail
                        rw [this]

/-! ### Claim C1: presence of the refined fields -/

/-- Responses driving a run whose review verdict decodes with a truthy
feedback value that is a string, not a list. -/
def demoC1 : List String :=
  ["hello",
   "\x7b\"status\":\"fail\",\"feedback\":\"bad\"\x7d",
   "better",
   "\x7b\"status\":\"pass\",\"feedback\":[]\x7d"]

/-- C1 as stated is false on the code: pipeline.py:40 tests Python
truthiness of the feedback value, not list-ness, so a verdict whose
feedback decodes to a non-empty string triggers refinement even though
the feedback is not a non-empty list. -/
theorem C1_counterexample :
    (ContentPipeline.generate_content 4 "Angles" demoC1).1 =
      .ok (runResult 4 "Angles" demoC1) ∧
    (runResult 4 "Angles" demoC1).refined_content.isSome = true ∧
    feedbackIsNonEmptyList (runResult 4 "Angles" demoC1).review_result = false :=
  ⟨rfl, rfl, rfl⟩

/-- C1 amended: in every run that returns normally, refined content is
present exactly when the initial verdict's status is "fail" and its
feedback value is truthy (for a list feedback this is precisely
non-emptiness), and refined content and refined verdict are present
together. -/
theorem C1_refinement_presence (g : Int) (t : String) (rs : List String)
    (r : PipelineResult) (tr : List LLMCall)
    (h : ContentPipeline.generate_content g t rs = (.ok r, tr)) :
    (r.refined_content.isSome ↔ refinementTriggered r.review_result) ∧
    (r.refined_content.isSome ↔ r.refined_review.isSome) := by
  obtain ⟨r1, r2, -, -, -, -, hcase⟩ := run_ok_spec g t rs r tr h
  rcases hcase with ⟨hnt, hc, hv, -⟩ | ⟨ht, fbv, r3, r4, p3, rv, -, -, -, -, hc, -, hvv, -⟩
  · rw [hc, hv]; simp [hnt]
  · rw [hc, hvv]; simp [ht]

/-- Witness for the amended C1 on a run that does refine. -/
theorem C1_witness :
    ((runResult 4 "Angles" demoC1).refined_content.isSome ↔
      refinementTriggered (runResult 4 "Angles" demoC1).review_result) ∧
    ((runResult 4 "Angles" demoC1).refined_content.isSome ↔
      (runResult 4 "Angles" demoC1).refined_review.isSome) :=
  C1_refinement_presence 4 "Angles" demoC1 (runResult 4 "Angles" demoC1)
    (runTrace 4 "Angles" demoC1) rfl

/-! ### Claim C3: Fail with empty feedback -/

/-- Responses driving a run whose review verdict is fail with an empty
feedback list. -/
def demoC3 : List String :=
  ["hello", "\x7b\"status\":\"fail\",\"feedback\":[]\x7d"]

/-- C3 as stated is false on the code: on a fail verdict with empty
feedback the pipeline performs no refinement and returns the verdict
with its feedback still empty — no generic issue is synthesized
anywhere (pipeline.py:40 simply skips the branch). -/
theorem C3_counterexample :
    (ContentPipeline.generate_content 4 "Types of angles" demoC3).1 =
      .ok ⟨.obj [("explanation", .str "hello"), ("mcqs", .arr [])],
           .obj [("status", .str "fail"), ("feedback", .arr [])], none, none⟩ := rfl

/-- C3 amended: on a fail verdict with an empty feedback list the
pipeline skips refinement entirely — both refined fields are absent
and the empty feedback is passed through untouched. -/
theorem C3_empty_feedback_skips (g : Int) (t : String) (rs : List String)
    (r : PipelineResult) (tr : List LLMCall)
    (h : ContentPipeline.generate_content g t rs = (.ok r, tr))
    (hs : pyGetItem r.review_result "status" = .ok (.str "fail"))
    (hf : pyGetItem r.review_result "feedback" = .ok (.arr [])) :
    r.refined_content = none ∧ r.refined_review = none := by
  obtain ⟨r1, r2, -, -, -, -, hcase⟩ := run_ok_spec g t rs r tr h
  rcases hcase with ⟨-, hc, hv, -⟩ | ⟨⟨-, fbv, hfb, htr⟩, -⟩
  · exact ⟨hc, hv⟩
  · rw [hf] at hfb
    injection hfb with hfb
    subst hfb
    simp [pyTruthy] at htr

/-- Witness for the amended C3 on the concrete empty-feedback run. -/
theorem C3_witness :
    (runResult 4 "Types of angles" demoC3).refined_content = none ∧
    (runResult 4 "Types of angles" demoC3).refined_review = none :=
  C3_empty_feedback_skips 4 "Types of angles" demoC3
    (runResult 4 "Types of angles" demoC3) (runTrace 4 "Types of angles" demoC3)
    rfl rfl rfl

/-! ### Claim C6: initial content and verdict always present -/

/-- C6: for any grade in bounds and non-empty topic, a run that
returns normally always carries an initial content parsed from the
first response and an initial verdict parsed from the second: the
generation call and the review call are the first two calls of every
completed invocation. -/
theorem C6_initial_always_present (g : Int) (t : String) (rs : List String)
    (r : PipelineResult) (tr : List LLMCall)
    (hg1 : 1 ≤ g) (hg2 : g ≤ 12) (ht : t ≠ "")
    (h : ContentPipeline.generate_content g t rs = (.ok r, tr)) :
    ∃ r1 r2, rs.get? 0 = some r1 ∧ rs.get? 1 = some r2 ∧
      r.initial_content = GeneratorAgent.parseContentResponse r1 ∧
      ReviewerAgent.parseReviewResponse r2 = .ok r.review_result ∧
      tr.get? 0 = some ⟨GeneratorAgent.systemPrompt, GeneratorAgent.basePrompt g t, 7, 2000⟩ ∧
      tr.get? 1 = some ⟨ReviewerAgent.systemPrompt,
        ReviewerAgent.build_review_prompt (GeneratorAgent.parseContentResponse r1) g t,
        3, 1000⟩ := by
  obtain ⟨r1, r2, h0, h1, hic, hrv, hcase⟩ := run_ok_spec g t rs r tr h
  refine ⟨r1, r2, h0, h1, hic, hrv, ?_⟩
  rcases hcase with ⟨-, -, -, htr⟩ | ⟨-, fbv, r3, r4, p3, rv, -, -, -, -, -, -, -, htr⟩ <;>
    rw [htr] <;> exact ⟨rfl, rfl⟩

/-- Responses driving a clean pass run. -/
def demoC6 : List String :=
  ["hello", "\x7b\"status\":\"pass\",\"feedback\":[]\x7d"]

/-- Witness for C6 on a concrete passing run. -/
theorem C6_witness :
    ∃ r1 r2, demoC6.get? 0 = some r1 ∧ demoC6.get? 1 = some r2 ∧
      (runResult 4 "Types of angles" demoC6).initial_content =
        GeneratorAgent.parseContentResponse r1 ∧
      ReviewerAgent.parseReviewResponse r2 =
        .ok (runResult 4 "Types of angles" demoC6).review_result ∧
      (runTrace 4 "Types of angles" demoC6).get? 0 =
        some ⟨GeneratorAgent.systemPrompt, GeneratorAgent.basePrompt 4 "Types of angles",
          7, 2000⟩ ∧
      (runTrace 4 "Types of angles" demoC6).get? 1 =
        some ⟨ReviewerAgent.systemPrompt,
          ReviewerAgent.build_review_prompt (GeneratorAgent.parseContentResponse r1)
            4 "Types of angles", 3, 1000⟩ :=
  C6_initial_always_present 4 "Types of angles" demoC6
    (runResult 4 "Types of angles" demoC6) (runTrace 4 "Types of angles" demoC6)
    (by decide) (by decide) (by decide) rfl

/-! ### Claim C7: at most one refinement attempt -/

/-- A call is a generation call when it carries the generator's system
message. -/
def isGenCall (c : LLMCall) : Bool :=
  c.systemRole = GeneratorAgent.systemPrompt

/-- A call is a review call when it carries the reviewer's system
message. -/
def isReviewCall (c : LLMCall) : Bool :=
  c.systemRole = ReviewerAgent.systemPrompt

/-- Number of calls in a trace matching a predicate. -/
def countCalls (p : LLMCall → Bool) (tr : List LLMCall) : Nat :=
  (tr.filter p).length

lemma roles_distinct : ReviewerAgent.systemPrompt ≠ GeneratorAgent.systemPrompt := by
  decide

@[simp] lemma isGenCall_gen (p : String) (a b : Nat) :
    isGenCall ⟨GeneratorAgent.systemPrompt, p, a, b⟩ = true := by
  simp [isGenCall]

@[simp] lemma isGenCall_rev (p : String) (a b : Nat) :
    isGenCall ⟨ReviewerAgent.systemPrompt, p, a, b⟩ = false := by
  simp [isGenCall]
  exact roles_distinct

@[simp] lemma isReviewCall_gen (p : String) (a b : Nat) :
    isReviewCall ⟨GeneratorAgent.systemPrompt, p, a, b⟩ = false := by
  simp [isReviewCall]
  exact fun hyp => roles_distinct hyp.symm

@[simp] lemma isReviewCall_rev (p : String) (a b : Nat) :
    isReviewCall ⟨ReviewerAgent.systemPrompt, p, a, b⟩ = true := by
  simp [isReviewCall]

/-- C7: every invocation — also one that aborts on an uncaught
exception — issues at most two generation calls, at most two review
calls, and at most four calls in total: the refined verdict never
triggers a second refinement. -/
theorem C7_at_most_one_refinement (g : Int) (t : String) (rs : List String) :
    countCalls isGenCall (ContentPipeline.generate_content g t rs).2 ≤ 2 ∧
    countCalls isReviewCall (ContentPipeline.generate_content g t rs).2 ≤ 2 ∧
    (ContentPipeline.generate_content g t rs).2.length ≤ 4 := by
  unfold ContentPipeline.generate_content
  cases hr0 : rs.get? 0 with
  | none => rw [gen_initial_none]; simp [countCalls]
  | some r1 =>
    rw [gen_initial_some]
    dsimp only
    cases hr1 : rs.get? 1 with
    | none => rw [review_none]; simp [countCalls]
    | some r2 =>
      rw [review_some]
      dsimp only
      cases hv : ReviewerAgent.parseReviewResponse r2 with
      | exn e => simp [countCalls]
      | ok v =>
        dsimp only
        cases hsv : pyGetItem v "status" with
        | exn e => simp [countCalls]
        | ok sv =>
          dsimp only
          cases hfail : pyEqStr sv "fail" with
          | false => simp [countCalls]
          | true =>
            simp only [if_true]
            cases hfb : pyGetItem v "feedback" with
            | exn e => simp [countCalls]
            | ok fbv =>
              dsimp only
              unfold GeneratorAgent.generate
              cases htruthy : pyTruthy fbv with
              | false => simp [countCalls]
              | true =>
                simp only [if_true]
                cases hbp : GeneratorAgent.build_prompt g t (some fbv) with
                | exn e => simp [countCalls]
                | ok p3 =>
                  dsimp only
                  cases hr2 : rs.get? 2 with
                  | none => simp [countCalls]
                  | some r3 =>
                    dsimp only
                    cases hr3 : rs.get? 3 with
                    | none => rw [review_none]; simp [countCalls]
                    | some r4 =>
                      rw [review_some]
                      dsimp only
                      cases hv2 : ReviewerAgent.parseReviewResponse r4 with
                      | exn e => simp [countCalls]
                      | ok rv => simp [countCalls]

/-! ### Claim C9: feedback items appear verbatim in the refinement prompt -/

lemma pyStr_str (s : String) : pyStr (.str s) = s := rfl

/-- Every member of a joined bulleted feedback list occurs verbatim in
the joined text. -/
lemma pyJoin_split (fs : List String) (fb : String) (hmem : fb ∈ fs) :
    ∃ pre post, pyJoin "\n" (fs.map (fun s => "- " ++ s)) = pre ++ fb ++ post := by
  induction fs with
  | nil => cases hmem
  | cons x xs ih =>
    rcases List.mem_cons.mp hmem with hx | hxs
    · subst hx
      cases xs with
      | nil =>
        exact ⟨"- ", "", by simp [pyJoin, String.append_empty]⟩
      | cons y ys =>
        refine ⟨"- ", "\n" ++ pyJoin "\n" ((y :: ys).map (fun s => "- " ++ s)), ?_⟩
        simp [pyJoin, String.append_assoc]
    · obtain ⟨pre, post, hsplit⟩ := ih hxs
      cases xs with
      | nil => cases hxs
      | cons y ys =>
        refine ⟨("- " ++ x ++ "\n") ++ pre, post, ?_⟩
        simp only [List.map_cons] at hsplit ⊢
        rw [show pyJoin "\n" (("- " ++ x) :: ("- " ++ y) :: ys.map (fun s => "- " ++ s)) =
          "- " ++ x ++ "\n" ++ pyJoin "\n" (("- " ++ y) :: ys.map (fun s => "- " ++ s))
          from rfl]
        rw [hsplit]
        simp [String.append_assoc]

/-- C9: whenever a completed run's initial verdict has status "fail"
and its feedback is a non-empty list of strings, the third call of the
trace is the refinement generation call and its prompt contains every
feedback string verbatim. -/
theorem C9_feedback_in_refinement_prompt (g : Int) (t : String) (rs : List String)
    (r : PipelineResult) (tr : List LLMCall) (fs : List String)
    (h : ContentPipeline.generate_content g t rs = (.ok r, tr))
    (hs : pyGetItem r.review_result "status" = .ok (.str "fail"))
    (hf : pyGetItem r.review_result "feedback" = .ok (.arr (fs.map .str)))
    (hne : fs ≠ []) :
    ∃ call, tr.get? 2 = some call ∧ call.systemRole = GeneratorAgent.systemPrompt ∧
      ∀ fb ∈ fs, ∃ pre post, call.userPrompt = pre ++ fb ++ post := by
  obtain ⟨r1, r2, -, -, -, -, hcase⟩ := run_ok_spec g t rs r tr h
  rcases hcase with ⟨hnt, -, -, -⟩ | ⟨-, fbv, r3, r4, p3, rv, hfb, -, -, hbp, -, -, -, htr⟩
  · exfalso
    refine hnt ⟨hs, .arr (fs.map .str), hf, ?_⟩
    cases fs with
    | nil => exact absurd rfl hne
    | cons a as => rfl
  · rw [hf] at hfb
    injection hfb with hfb
    subst hfb
    have hmapne : fs.map Json.str ≠ [] := by
      cases fs with
      | nil => exact absurd rfl hne
      | cons a as => simp
    rw [build_prompt_arr g t _ hmapne] at hbp
    injection hbp with hbp
    rw [htr]
    refine ⟨_, rfl, rfl, ?_⟩
    intro fb hmem
    have hmap : (fs.map Json.str).map (fun x => "- " ++ pyStr x) =
        fs.map (fun s => "- " ++ s) := by
      rw [List.map_map]
      rfl
    obtain ⟨pre, post, hsplit⟩ := pyJoin_split fs fb hmem
    refine ⟨(GeneratorAgent.basePrompt g t ++ "\n\nPREVIOUS FEEDBACK TO ADDRESS:\n") ++ pre,
      post ++ "\n\nPlease revise the content addressing all the feedback points above.", ?_⟩
    dsimp only
    rw [← hbp, hmap, hsplit]
    simp [String.append_assoc]

/-- Responses driving a refinement on the spec's example feedback. -/
def demoC9 : List String :=
  ["hello",
   "\x7b\"status\":\"fail\",\"feedback\":[\"Question 2 option C is incorrect\"]\x7d",
   "better",
   "\x7b\"status\":\"pass\",\"feedback\":[]\x7d"]

/-- Witness for C9 with the spec's example feedback item. -/
theorem C9_witness :
    ∃ call, (runTrace 4 "Angles" demoC9).get? 2 = some call ∧
      call.systemRole = GeneratorAgent.systemPrompt ∧
      ∀ fb ∈ ["Question 2 option C is incorrect"],
        ∃ pre post, call.userPrompt = pre ++ fb ++ post :=
  C9_feedback_in_refinement_prompt 4 "Angles" demoC9
    (runResult 4 "Angles" demoC9) (runTrace 4 "Angles" demoC9)
    ["Question 2 option C is incorrect"] rfl rfl rfl (by simp)
